import Mathlib

/-!
Verification of the Counter Rollup (Stackr SDK tutorial) execution core.

The repository's source defines:
- `CounterState` with `getRootHash = solidityPackedKeccak256(["uint256"], [state])`;
- two state transition functions `increment` and `decrement` over an input
  schema `{ timestamp: UINT }`;
- a genesis state of `0`;
- a sequencer configuration `blockSize = 16`, `blockTime = 1000`;
- action signing via `wallet.signTypedData(domain, types, { name, inputs })`.

The SDK-side components (Transition Executor, Block Assembler, Batch
Committer, EIP-712 authenticator) are not part of this repository's source;
where a claim depends on them they are modelled from the spec, and marked so
in their doc comments.
-/

namespace Counter

/-! ## Keccak-256 (ethers `solidityPackedKeccak256` backend)

An executable Keccak-f[1600] sponge with the original Keccak `0x01` padding
(the Ethereum `keccak256`), over `Nat` lanes reduced mod `2^64`. -/

/-- Left-rotate a 64-bit word (represented as a `Nat < 2^64`) by `n ≤ 64` bits. -/
def rotl64 (x n : Nat) : Nat :=
  (((x % 2 ^ 64) <<< (n % 64)) ||| ((x % 2 ^ 64) >>> (64 - n % 64))) % 2 ^ 64

/-- 64-bit complement. -/
def not64 (x : Nat) : Nat :=
  x ^^^ (2 ^ 64 - 1)

/-- Lane accessor for a 25-lane state, `(x, y)` stored at index `x + 5*y`. -/
def lane (A : List Nat) (x y : Nat) : Nat :=
  A.getD (x % 5 + 5 * (y % 5)) 0

/-- θ step. -/
def theta (A : List Nat) : List Nat :=
  let C := fun x => lane A x 0 ^^^ lane A x 1 ^^^ lane A x 2 ^^^ lane A x 3 ^^^ lane A x 4
  let D := fun x => C ((x + 4) % 5) ^^^ rotl64 (C ((x + 1) % 5)) 1
  (List.range 25).map (fun i => A.getD i 0 ^^^ D (i % 5))

/-- The ρ rotation table built by walking the π permutation from lane
`(1, 0)`: at step `t` the visited lane gets offset `(t+1)(t+2)/2 mod 64`,
and the walk moves `(x, y) ↦ (y, (2x + 3y) mod 5)`. Entries are
`(x + 5*y, offset)` pairs; lane `(0, 0)` keeps offset `0`. -/
def rhoWalk : List (Nat × Nat) :=
  ((List.range 24).foldl
    (fun (st : List (Nat × Nat) × Nat × Nat) t =>
      let x := st.2.1
      let y := st.2.2
      ((x + 5 * y, (t + 1) * (t + 2) / 2 % 64) :: st.1, y, (2 * x + 3 * y) % 5))
    ([], 1, 0)).1

/-- ρ rotation offset of the lane stored at index `i = x + 5*y`. -/
def rhoOffset (i : Nat) : Nat :=
  ((rhoWalk.find? (fun p => p.1 == i)).map Prod.snd).getD 0

/-- Combined ρ and π steps: output lane `(x, y)` is the rotated source lane
`((x + 3*y) % 5, x)`. -/
def rhoPi (A : List Nat) : List Nat :=
  (List.range 25).map (fun i =>
    let x := i % 5
    let y := i / 5
    let sx := (x + 3 * y) % 5
    let sy := x
    rotl64 (lane A sx sy) (rhoOffset (sx + 5 * sy)))

/-- χ step. -/
def chi (A : List Nat) : List Nat :=
  (List.range 25).map (fun i =>
    let x := i % 5
    let y := i / 5
    lane A x y ^^^ (not64 (lane A (x + 1) y) &&& lane A (x + 2) y))

/-- ι step: xor the round constant into lane `(0, 0)`. -/
def iota (rc : Nat) (A : List Nat) : List Nat :=
  match A with
  | [] => []
  | a0 :: rest => (a0 ^^^ rc) :: rest

/-- One step of the degree-8 LFSR (polynomial `x^8 + x^6 + x^5 + x^4 + 1`)
generating the ι round-constant bits. -/
def lfsrStep (R : Nat) : Nat :=
  ((R <<< 1) ^^^ ((R >>> 7) * 0x71)) % 256

/-- The round-constant bit `rc(t)`: the low bit of the LFSR after `t` steps
from `0x01`. -/
def rcBit (t : Nat) : Nat :=
  Nat.iterate lfsrStep t 1 % 2

/-- Keccak-f[1600] round constants, round `i` having bit `rc(7i + j)` at
position `2^j - 1` for `j = 0, ..., 6`. -/
def keccakRC : List Nat :=
  (List.range 24).map (fun i =>
    ((List.range 7).map (fun j => rcBit (7 * i + j) <<< (2 ^ j - 1))).foldl (· ||| ·) 0)

/-- The full Keccak-f[1600] permutation: 24 rounds of θ, ρ, π, χ, ι. -/
def keccakF (A : List Nat) : List Nat :=
  keccakRC.foldl (fun A rc => iota rc (chi (rhoPi (theta A)))) A

/-- Original Keccak multi-rate padding `0x01 .. 0x80` to one 136-byte block
(rate of Keccak-256); assumes `msg.length < 136`, which holds for the 32-byte
messages this development hashes. -/
def pad101 (msg : List Nat) : List Nat :=
  let padLen := 136 - msg.length
  if padLen = 1 then msg ++ [0x81]
  else msg ++ [0x01] ++ List.replicate (padLen - 2) 0 ++ [0x80]

/-- Assemble 8 consecutive bytes (little-endian) into one 64-bit lane. -/
def leLane (bs : List Nat) : Nat :=
  ((List.range 8).map (fun i => bs.getD i 0 <<< (8 * i))).foldl (· ||| ·) 0

/-- Split one 136-byte rate block into its 17 lanes. -/
def toLanes (bs : List Nat) : List Nat :=
  (List.range 17).map (fun j => leLane ((bs.drop (8 * j)).take 8))

/-- Absorb one block of lanes into the sponge state (capacity lanes get 0). -/
def absorbBlock (A lanes : List Nat) : List Nat :=
  (List.range 25).map (fun i => A.getD i 0 ^^^ lanes.getD i 0)

/-- Ethereum `keccak256` of a byte string of fewer than 136 bytes:
absorb the single padded block and squeeze the first 32 bytes. -/
def keccak256 (msg : List Nat) : List Nat :=
  let A := keccakF (absorbBlock (List.replicate 25 0) (toLanes (pad101 msg)))
  (List.range 32).map (fun i => (A.getD (i / 8) 0 >>> (8 * (i % 8))) % 256)

/-- Big-endian 32-byte `uint256` encoding used by `solidityPacked(["uint256"], [v])`. -/
def beBytes256 (v : Nat) : List Nat :=
  (List.range 32).map (fun i => (v >>> (8 * (31 - i))) % 256)

/-! ## State (src: state.ts, `CounterState extends State<number>`) -/

/-- `CounterState` holds a single number; embedded as an `Int` since JS
numbers here range over exact integers and the decrement handler computes
`state - 1` before its guard. -/
structure CounterState where
  state : Int
  deriving DecidableEq, Repr

/-- `getRootHash(): BytesLike` from src:
`solidityPackedKeccak256(["uint256"], [this.state])` — the keccak256 of the
32-byte big-endian `uint256` encoding of the counter value. -/
def CounterState.getRootHash (s : CounterState) : List Nat :=
  keccak256 (beBytes256 ((s.state % (2 : Int) ^ 256).toNat))

/-- Genesis state from src `genesis-state.json`: `{ "state": 0 }`. -/
def genesisState : Int := 0

/-! ## Transitions (src: transitions.ts) -/

/-- Typed inputs per the schema `{ timestamp: SolidityType.UINT }`. -/
structure ActionInputs where
  timestamp : Nat
  deriving DecidableEq, Repr

/-- `REQUIRE(cond, msg)` from the SDK: aborts the handler with `msg` when the
condition fails, embedded as an `Except` short-circuit. -/
def REQUIRE (cond : Prop) [Decidable cond] (msg : String) : Except String Unit :=
  if cond then Except.ok () else Except.error msg

/-- The `increment` STF handler from src:
`({ state }) => { state += 1; return state; }`. -/
def increment (state : Int) (_inputs : ActionInputs) : Except String Int :=
  let state := state + 1
  Except.ok state

/-- The `decrement` STF handler from src:
`({ state }) => { state -= 1; REQUIRE(state > 0, "Cannot decrement below 0"); return state; }`. -/
def decrement (state : Int) (_inputs : ActionInputs) : Except String Int :=
  let state := state - 1
  match REQUIRE (state > 0) "Cannot decrement below 0" with
  | Except.error e => Except.error e
  | Except.ok _ => Except.ok state

/-- The registered transition names, from src `transitions = { increment, decrement }`. -/
inductive TransitionName where
  | increment
  | decrement
  deriving DecidableEq, Repr

/-- The transition registry from src: name → handler. -/
def transitions : TransitionName → Int → ActionInputs → Except String Int
  | TransitionName.increment => increment
  | TransitionName.decrement => decrement

/-- An action envelope as consumed by the executor: transition name plus
typed inputs (signature and sender are checked before execution). -/
structure Action where
  name : TransitionName
  inputs : ActionInputs
  deriving DecidableEq, Repr

/-! ## Transition Executor (spec §4.4; SDK code, not in this repository) -/

/-- Modelled from the spec: the Transition Executor's
`apply(currentState, action) -> (newState, rootHash) | ExecutionError` —
resolves the transition by name, runs the handler, and on success returns
the new state with its root hash; a `REQUIRE` failure becomes a rejection. -/
def applyAction (state : Int) (a : Action) : Except String (Int × List Nat) :=
  match transitions a.name state a.inputs with
  | Except.ok s' => Except.ok (s', CounterState.getRootHash ⟨s'⟩)
  | Except.error e => Except.error e

/-- Modelled from the spec: the state the executor holds after one action —
an accepted action advances the state, a rejected one leaves it unchanged. -/
def stepState (state : Int) (a : Action) : Int :=
  match applyAction state a with
  | Except.ok (s', _) => s'
  | Except.error _ => state

/-- Modelled from the spec: execute an ordered list of actions in order,
returning the final state and the per-action outcomes (accepted with
`(newState, rootHash)`, or rejected with a reason). -/
def executeAll (state : Int) : List Action → Int × List (Except String (Int × List Nat))
  | [] => (state, [])
  | a :: rest =>
    match applyAction state a with
    | Except.ok (s', h) =>
      let r := executeAll s' rest
      (r.1, Except.ok (s', h) :: r.2)
    | Except.error e =>
      let r := executeAll state rest
      (r.1, Except.error e :: r.2)

/-! ## Block Assembler (spec §4.5; config from src stackr.config.ts) -/

/-- The sequencer configuration from src: `blockSize: 16, blockTime: 1000`. -/
structure SequencerConfig where
  blockSize : Nat
  blockTime : Nat
  deriving DecidableEq, Repr

/-- `stackrConfig.sequencer` from src. -/
def sequencerConfig : SequencerConfig :=
  { blockSize := 16, blockTime := 1000 }

/-- Modelled from the spec: the Block Assembler seals when the action count
reaches `blockSize` OR `blockTime` milliseconds have elapsed, whichever
first. -/
def shouldSeal (cfg : SequencerConfig) (actionCount elapsedMs : Nat) : Bool :=
  cfg.blockSize ≤ actionCount || cfg.blockTime ≤ elapsedMs

/-- A sealed block: the ordered actions, their outcomes, and the pre/post
state roots. -/
structure SealedBlock where
  actions : List Action
  outcomes : List (Except String (Int × List Nat))
  preStateRoot : List Nat
  postStateRoot : List Nat
  deriving Repr

/-- Modelled from the spec: sealing finalizes the block's pre/post state
roots over the executed actions. -/
def sealBlock (preState : Int) (acts : List Action) : SealedBlock :=
  { actions := acts
    outcomes := (executeAll preState acts).2
    preStateRoot := CounterState.getRootHash ⟨preState⟩
    postStateRoot := CounterState.getRootHash ⟨(executeAll preState acts).1⟩ }

/-! ## Batch Committer (spec §4.6; SDK code, not in this repository) -/

/-- Modelled from the spec: the Batch Committer's commitment, a deterministic
aggregate over the sealed blocks' post-state roots in block order — here the
keccak256 of their concatenation. -/
def commitBatch (blocks : List SealedBlock) : List Nat :=
  keccak256 ((blocks.map SealedBlock.postStateRoot).foldr (· ++ ·) [])

/-! ## Action signing (src: index.ts, `wallet.signTypedData(domain, types, { name, inputs })`) -/

/-- EIP-712 domain parameters, from src `stackrConfig.domain`. -/
structure DomainParams where
  name : String
  version : String
  salt : String
  deriving DecidableEq, Repr

/-- The domain from src stackr.config.ts. -/
def stackrDomain : DomainParams :=
  { name := "Stackr MVP v0"
    version := "1"
    salt := "0x0123456789abcdef0123456789abcdef0123456789abcdef0123456789abcdef" }

/-- The canonical structured message signed by `wallet.signTypedData`: the
EIP-712 domain together with the typed value `\x7b name, inputs \x7d`, where
`name` is the transition name. Modelled structurally (the signature is
verified against exactly this message). -/
structure SigningMessage where
  domain : DomainParams
  name : String
  inputs : ActionInputs
  deriving DecidableEq, Repr

/-- The signing payload construction from src:
`signTypedData(domain, types, \x7b name, inputs \x7d)`. -/
def signingPayload (domain : DomainParams) (name : String) (inputs : ActionInputs) :
    SigningMessage :=
  { domain := domain, name := name, inputs := inputs }

/-! ## Theorems -/

/-- Claim C1 (code behavior at the failing input): from genesis `0`, the
increment action is accepted and advances the state to `1`, but the decrement
action at state `1` is then rejected with "Cannot decrement below 0" and the
state stays `1` — not accepted back to `0` as the claim states. -/
theorem c1_code_behavior :
    stepState genesisState ⟨TransitionName.increment, ⟨0⟩⟩ = 1 ∧
    decrement 1 ⟨0⟩ = Except.error "Cannot decrement below 0" ∧
    stepState 1 ⟨TransitionName.decrement, ⟨0⟩⟩ = 1 := by
  refine ⟨?_, by simp [decrement, REQUIRE], ?_⟩
  · simp [stepState, applyAction, transitions, increment, genesisState]
  · simp [stepState, applyAction, transitions, decrement, REQUIRE]

/-- Claim C2: for every state value `s ≤ 0` (in particular genesis `0`), the
decrement handler signals the requirement failure "Cannot decrement below 0"
and the executor leaves the state unchanged. -/
theorem c2_decrement_rejected_nonpositive (s : Int) (i : ActionInputs) (h : s ≤ 0) :
    decrement s i = Except.error "Cannot decrement below 0" ∧
    stepState s ⟨TransitionName.decrement, i⟩ = s := by
  have h' : ¬ (s - 1 > 0) := by omega
  constructor
  · simp [decrement, REQUIRE, h']
  · simp [stepState, applyAction, transitions, decrement, REQUIRE, h']

/-- Witness for C2 at the genesis state `0`. -/
theorem c2_witness :
    (0 : Int) ≤ 0 ∧
    (decrement 0 ⟨0⟩ = Except.error "Cannot decrement below 0" ∧
     stepState 0 ⟨TransitionName.decrement, ⟨0⟩⟩ = 0) :=
  ⟨by decide, c2_decrement_rejected_nonpositive 0 ⟨0⟩ (by decide)⟩

/-- Claim C3: execution is deterministic — `applyAction` on the same
`(state, action)` pair always yields the same result, and two independent
replays of the same ordered action list from the same genesis state yield
identical final state and identical per-action outcomes (hence roots). -/
theorem c3_deterministic_replay (s : Int) (a : Action) (g : Int) (acts : List Action)
    (r₁ r₂ : Int × List (Except String (Int × List Nat)))
    (h₁ : r₁ = executeAll g acts) (h₂ : r₂ = executeAll g acts) :
    applyAction s a = applyAction s a ∧ r₁.1 = r₂.1 ∧ r₁.2 = r₂.2 := by
  subst h₁
  subst h₂
  exact ⟨rfl, rfl, rfl⟩

/-- Witness for C3 with two runs over the empty action list from genesis. -/
theorem c3_witness :
    ((0 : Int), ([] : List (Except String (Int × List Nat)))) = executeAll 0 [] ∧
    (applyAction 0 ⟨TransitionName.increment, ⟨0⟩⟩ =
       applyAction 0 ⟨TransitionName.increment, ⟨0⟩⟩ ∧
     ((0 : Int), ([] : List (Except String (Int × List Nat)))).1 = (executeAll 0 []).1 ∧
     ((0 : Int), ([] : List (Except String (Int × List Nat)))).2 = (executeAll 0 []).2) :=
  ⟨rfl, c3_deterministic_replay 0 ⟨TransitionName.increment, ⟨0⟩⟩ 0 [] _ _ rfl rfl⟩

/-- Claim C4: the state root-hash function is a pure deterministic function of
the state value — equal state values give equal hashes — and its output is a
fixed-size 32-byte string (keccak256 of the `uint256` encoding). -/
theorem c4_root_hash_deterministic_fixed_size (s t : Int) (h : s = t) :
    CounterState.getRootHash ⟨s⟩ = CounterState.getRootHash ⟨t⟩ ∧
    (CounterState.getRootHash ⟨s⟩).length = 32 := by
  subst h
  refine ⟨rfl, ?_⟩
  simp [CounterState.getRootHash, keccak256]

/-- Witness for C4 at the genesis state value `0`. -/
theorem c4_witness :
    (0 : Int) = 0 ∧
    (CounterState.getRootHash ⟨0⟩ = CounterState.getRootHash ⟨0⟩ ∧
     (CounterState.getRootHash ⟨0⟩).length = 32) :=
  ⟨rfl, c4_root_hash_deterministic_fixed_size 0 0 rfl⟩

/-- Claim C5: the decrement handler succeeds, returning `s - 1`, exactly when
`s ≥ 2`; in particular decrementing from state `1` (which would produce `0`)
is rejected with "Cannot decrement below 0" because the REQUIRE guard checks
`state > 0` after the subtraction. -/
theorem c5_decrement_succeeds_iff_ge_two (s : Int) (i : ActionInputs) :
    (decrement s i = Except.ok (s - 1) ↔ 2 ≤ s) ∧
    decrement 1 i = Except.error "Cannot decrement below 0" := by
  constructor
  · constructor
    · intro hok
      by_contra hlt
      have h' : ¬ (s - 1 > 0) := by omega
      simp [decrement, REQUIRE, h'] at hok
    · intro h2
      have h' : s - 1 > 0 := by omega
      simp [decrement, REQUIRE, h']
  · rfl

/-- Witness for C5 at states `2` (accepted) and `1` (rejected). -/
theorem c5_witness :
    2 ≤ (2 : Int) ∧
    decrement 2 ⟨0⟩ = Except.ok (2 - 1) ∧
    decrement 1 ⟨0⟩ = Except.error "Cannot decrement below 0" :=
  ⟨by decide, (c5_decrement_succeeds_iff_ge_two 2 ⟨0⟩).1.mpr (by decide),
   (c5_decrement_succeeds_iff_ge_two 2 ⟨0⟩).2⟩

/-- Claim C6: the batch commitment is a deterministic function of the ordered
post-state roots of the sealed blocks, so committing the same ordered
sequence of sealed blocks twice (`bs' := bs`) yields an identical commitment
value. -/
theorem c6_commit_idempotent (bs bs' : List SealedBlock)
    (h : bs.map SealedBlock.postStateRoot = bs'.map SealedBlock.postStateRoot) :
    commitBatch bs = commitBatch bs' := by
  simp [commitBatch, h]

/-- Witness for C6: committing the empty batch twice. -/
theorem c6_witness :
    ([] : List SealedBlock).map SealedBlock.postStateRoot =
      ([] : List SealedBlock).map SealedBlock.postStateRoot ∧
    commitBatch [] = commitBatch [] :=
  ⟨rfl, c6_commit_idempotent [] [] rfl⟩

/-- Claim C7: with the configured sequencer thresholds (`blockSize = 16`,
`blockTime = 1000` ms), a block seals as soon as its action count reaches
`blockSize` for every elapsed time (even before `blockTime`), seals once
`blockTime` has elapsed even with zero actions, and an empty sealed block has
equal pre- and post-state roots. -/
theorem c7_seal_thresholds (count elapsed : Nat) (s : Int) :
    (sequencerConfig.blockSize ≤ count → shouldSeal sequencerConfig count elapsed = true) ∧
    (sequencerConfig.blockTime ≤ elapsed → shouldSeal sequencerConfig 0 elapsed = true) ∧
    (sealBlock s []).preStateRoot = (sealBlock s []).postStateRoot := by
  refine ⟨?_, ?_, rfl⟩
  · intro h
    simp [shouldSeal, h]
  · intro h
    simp [shouldSeal, h]

/-- Witness for C7 at `count = 16, elapsed = 0` (size-triggered seal before
the time bound), `count = 0, elapsed = 1000` (time-triggered seal of an empty
block), and an empty block sealed at genesis. -/
theorem c7_witness :
    sequencerConfig.blockSize ≤ 16 ∧
    sequencerConfig.blockTime ≤ 1000 ∧
    shouldSeal sequencerConfig 16 0 = true ∧
    shouldSeal sequencerConfig 0 1000 = true ∧
    (sealBlock 0 []).preStateRoot = (sealBlock 0 []).postStateRoot :=
  ⟨by decide, by decide, (c7_seal_thresholds 16 0 0).1 (by decide),
   (c7_seal_thresholds 0 1000 0).2.1 (by decide), (c7_seal_thresholds 0 0 0).2.2⟩

/-- Claim C8: the canonical signing message is built from the domain
parameters, the transition name and the typed inputs, so messages for two
different transition names, or two different deployments (domains), are never
equal — a signature over one is never a signature over the other. -/
theorem c8_signing_domain_separated (d d' : DomainParams) (n n' : String)
    (i i' : ActionInputs) (h : n ≠ n' ∨ d ≠ d') :
    signingPayload d n i ≠ signingPayload d' n' i' := by
  intro heq
  cases h with
  | inl hn => exact hn (congrArg SigningMessage.name heq)
  | inr hd => exact hd (congrArg SigningMessage.domain heq)

/-- Witness for C8: the increment and decrement signing payloads under the
deployed domain are distinct even for identical inputs. -/
theorem c8_witness :
    (("increment" : String) ≠ "decrement" ∨ stackrDomain ≠ stackrDomain) ∧
    signingPayload stackrDomain "increment" ⟨0⟩ ≠
      signingPayload stackrDomain "decrement" ⟨0⟩ :=
  ⟨Or.inl (by decide),
   c8_signing_domain_separated stackrDomain stackrDomain "increment" "decrement" ⟨0⟩ ⟨0⟩
     (Or.inl (by decide))⟩

/-- Claim C9: the increment handler is total and never rejects — for every
state value and every typed input it succeeds and returns exactly `s + 1`. -/
theorem c9_increment_total (s : Int) (i : ActionInputs) :
    increment s i = Except.ok (s + 1) :=
  rfl

/-- Claim C10: both handlers depend only on the current state, not on the
typed inputs — the same state with any two inputs (e.g. different
timestamps) produces the same handler outcome. -/
theorem c10_handlers_ignore_inputs (s : Int) (i i' : ActionInputs) :
    increment s i = increment s i' ∧ decrement s i = decrement s i' :=
  ⟨rfl, rfl⟩

end Counter
